import Mathlib

/-!
Verification of the dffml XGBoost regressor plugin
(`dffml_model_xgboost/xdgregressor.py`).

The plugin is a thin adapter: it flattens host-framework records into a
row-major numeric table, delegates fitting and prediction to an external
gradient-boosted-tree library, and persists the fitted handle to
`<directory>/model.joblib`.

Shallow embedding conventions:
* Numeric values are rationals (`ℚ`), standing for the floats the code
  passes around.
* The external library (xgboost / sklearn) is a black box, modelled by an
  `ExtLib` record of oracle functions; every theorem quantifies over it.
* The host framework's `Record` / `Sources` abstractions are external to
  this repository; they are modelled from the spec where noted.
* Stateful methods are translated to state-passing functions over `World`
  (in-memory handle, filesystem, record source); an exception becomes an
  `Except.error` value paired with the state at the point of the raise.
-/

namespace DffmlXgb

/-- A host-framework feature value: a scalar or a vector of numbers.
Mirrors the `np.isscalar(feature)` test the adapter performs: a scalar
contributes one row element, a vector contributes all its elements. -/
inductive FeatureValue where
  | scalar (x : ℚ)
  | vector (xs : List ℚ)
  deriving DecidableEq, Repr

/-- Confidence slot attached with a prediction; the adapter always passes
`float("nan")` here, modelled by the distinguished `nan` constructor. -/
inductive Conf where
  | nan
  | val (c : ℚ)
  deriving DecidableEq, Repr

/-- Modelled from the spec: a host-framework record (the `dffml.record.Record`
class lives in the host framework, outside this repository): a unique key, a
mapping from feature name to scalar-or-vector value, and attached named
prediction results. -/
structure Record where
  key : String
  data : List (String × FeatureValue)
  preds : List (String × ℚ × Conf)
  deriving DecidableEq, Repr

/-- Modelled from the spec: `Record.feature(name)` reads the record's value
for a feature name. -/
def Record.feature (r : Record) (name : String) : Option FeatureValue :=
  (r.data.find? (fun p => p.1 == name)).map Prod.snd

/-- Modelled from the spec: `Record.features(subset)` returns the record's
values for the requested feature names, in the order the features were
configured; names the record does not expose are skipped (upstream filtering
guarantees they are all present when the adapter calls this). -/
def Record.featureValues (r : Record) (names : List String) : List FeatureValue :=
  names.filterMap r.feature

/-- Modelled from the spec: `Record.predicted(name, value, confidence)`
attaches a named prediction result plus a confidence placeholder. -/
def Record.predicted (r : Record) (name : String) (v : ℚ) (c : Conf) : Record :=
  { r with preds := (name, v, c) :: r.preds.filter (fun p => p.1 != name) }

/-- Modelled from the spec: `sources.with_features(names)` filters the
record source down to the records exposing every requested feature. -/
def withFeatures (recs : List Record) (names : List String) : List Record :=
  recs.filter (fun r => names.all (fun n => (r.feature n).isSome))

/-- The opaque state the external library stores in a regressor when `fit`
succeeds; modelled as the (feature table, target column) pair it was fit on. -/
abbrev FittedData := List (List ℚ) × List FeatureValue

/-- Modelled from the spec: the external gradient-boosted-tree library,
an opaque numerical black box.  `fitResult x y = none` models the `fit`
call raising on the given data; `predictRow` is the per-row prediction
function of a fitted model. -/
structure ExtLib where
  fitResult : List (List ℚ) → List FeatureValue → Option FittedData
  predictRow : FittedData → List ℚ → ℚ

/-- The external regressor object `xgb.XGBRegressor(...)`: the constructor
arguments the adapter passes, plus the fitted state (`none` until `fit`
has succeeded on this object). -/
structure XGBRegressor where
  n_estimators : ℕ
  learning_rate : ℚ
  max_depth : ℕ
  subsample : ℚ
  fitted : Option FittedData
  deriving DecidableEq, Repr

/-- Errors the adapter's methods can surface.  `modelNotTrained` is the
adapter's own `ModelNotTrained` (with its message); the others stand for
exceptions propagated unchanged from outside the adapter: `notFitted` is
the external library rejecting `predict` on an unfitted regressor,
`fitError` is the external `fit` call raising, `keyError` is the host
framework raising when a record lacks the requested target feature. -/
inductive XError where
  | modelNotTrained (msg : String)
  | notFitted
  | fitError
  | keyError
  deriving DecidableEq, Repr

/-- Embedding of `self.saved.predict(pd.DataFrame(xdata))`: the external predict call,
one prediction per row; raises the library's not-fitted error when the
regressor has never been fit. -/
def XGBRegressor.predictTable (lib : ExtLib) (m : XGBRegressor)
    (xdata : List (List ℚ)) : Except XError (List ℚ) :=
  match m.fitted with
  | none => .error .notFitted
  | some d => .ok (xdata.map (lib.predictRow d))

/-- Embedding of `XDGRegressorModelConfig`: directory, ordered input feature names, the
target feature name, and the two exposed hyperparameters. -/
structure XDGRegressorModelConfig where
  directory : String
  features : List String
  predict : String
  learning_rate : ℚ
  n_estimators : ℕ
  deriving DecidableEq, Repr

/-- Embedding of `self.saved_filepath = pathlib.Path(self.config.directory, "model.joblib")`. -/
def savedFilepath (cfg : XDGRegressorModelConfig) : String :=
  cfg.directory ++ "/model.joblib"

/-- The adapter's mutable world: the in-memory fitted-model handle
(`self.saved`), the filesystem (path ↦ stored blob), and the record source. -/
structure World where
  saved : Option XGBRegressor
  disk : String → Option XGBRegressor
  source : List Record

/-- Embedding of `[feature] if self.np.isscalar(feature) else feature`: the row elements
one feature value contributes. -/
def flattenValue : FeatureValue → List ℚ
  | .scalar x => [x]
  | .vector xs => xs

/-- The per-record inner loop of the table build:
`record_data = []`, then for each feature value
`record_data.extend([feature] if np.isscalar(feature) else feature)`. -/
def recordRow (names : List String) (r : Record) : List ℚ :=
  (r.featureValues names).foldl
    (fun record_data feature => record_data ++ flattenValue feature)
    []

/-- The table build: one flattened row appended per record, in the input's
iteration order (`xdata.append(record_data)` inside the `async for`). -/
def tableOf (names : List String) (recs : List Record) : List (List ℚ) :=
  recs.map (recordRow names)

/-- Embedding of `XDGRegressorModel.__init__`: `self.saved = None`, then
`if self.saved_filepath.is_file(): self.saved = joblib.load(...)`. -/
def initModel (cfg : XDGRegressorModelConfig) (disk : String → Option XGBRegressor)
    (recs : List Record) : World :=
  let saved : Option XGBRegressor := none
  let saved :=
    match disk (savedFilepath cfg) with
    | some blob => some blob
    | none => saved
  { saved := saved, disk := disk, source := recs }

/-- The feature table `train` builds: records filtered to those exposing the
input features plus the target, each flattened over the input features. -/
def trainTable (cfg : XDGRegressorModelConfig) (recs : List Record) : List (List ℚ) :=
  tableOf cfg.features (withFeatures recs (cfg.features ++ [cfg.predict]))

/-- The parallel target column `train` builds:
`ydata.append(record.feature(self.parent.config.predict.name))`.
Filtering guarantees the target feature is present, so the default is
never taken on the records `train` actually visits. -/
def trainTargets (cfg : XDGRegressorModelConfig) (recs : List Record) : List FeatureValue :=
  (withFeatures recs (cfg.features ++ [cfg.predict])).map
    (fun r => (r.feature cfg.predict).getD (.scalar 0))

/-- Embedding of `xgb.XGBRegressor(n_estimators=..., learning_rate=..., max_depth=2,
subsample=0.8)`: the fresh, not yet fitted regressor `train` constructs. -/
def freshRegressor (cfg : XDGRegressorModelConfig) : XGBRegressor :=
  { n_estimators := cfg.n_estimators
    learning_rate := cfg.learning_rate
    max_depth := 2
    subsample := 8/10
    fitted := none }

/-- Embedding of `XDGRegressorModel.train`: build `(xdata, ydata)` from the source,
assign `self.saved = xgb.XGBRegressor(...)` (this happens before `fit`),
call `self.saved.fit(x_data, y_data)`, and on success
`joblib.dump(self.saved, str(self.saved_filepath))`.  A raise inside `fit`
surfaces as an `Except.error`, with the state as it was at that point:
the handle already holds the fresh regressor, the disk is untouched. -/
def train (lib : ExtLib) (cfg : XDGRegressorModelConfig) (w : World) :
    Except XError Unit × World :=
  match lib.fitResult (trainTable cfg w.source) (trainTargets cfg w.source) with
  | none =>
      (.error .fitError, { w with saved := some (freshRegressor cfg) })
  | some d =>
      let m : XGBRegressor := { freshRegressor cfg with fitted := some d }
      (.ok (),
       { saved := some m
         disk := fun p => if p = savedFilepath cfg then some m else w.disk p
         source := w.source })

/-- Embedding of `input_datum.feature(self.config.predict.name)` over the whole input:
the true target values handed to `r2_score`; `none` models the host
framework raising (or the metric rejecting a non-numeric target) when some
record lacks a scalar target value. -/
def scalarTargets (predictName : String) (recs : List Record) : Option (List ℚ) :=
  recs.mapM (fun r =>
    match r.feature predictName with
    | some (.scalar x) => some x
    | _ => none)

/-- Modelled from the spec: `sklearn.metrics.r2_score(y_true, y_pred)`, the
coefficient of determination `1 - SS_res / SS_tot` (range `(-∞, 1]`,
`1` = perfect fit). -/
def r2_score (yTrue yPred : List ℚ) : ℚ :=
  let mean := yTrue.sum / (yTrue.length : ℚ)
  let ssRes := ((yTrue.zip yPred).map (fun p => (p.1 - p.2) ^ 2)).sum
  let ssTot := (yTrue.map (fun y => (y - mean) ^ 2)).sum
  1 - ssRes / ssTot

/-- Embedding of `XDGRegressorModel.accuracy`: raise `ModelNotTrained` if `self.saved`
is `None`; otherwise read the records exposing the configured input
features (`getInputData`), build the feature table, ask the fitted model
for predictions, read the true target values, and return
`r2_score(actuals, predictions)`.  No statement of the method writes to
the handle, the disk, or the records, so the world passes through
unchanged on every path. -/
def accuracy (lib : ExtLib) (cfg : XDGRegressorModelConfig) (w : World) :
    Except XError ℚ × World :=
  match w.saved with
  | none => (.error (.modelNotTrained "Train the model before assessing accuracy"), w)
  | some m =>
      let input_data := withFeatures w.source cfg.features
      let xdata := tableOf cfg.features input_data
      match m.predictTable lib xdata with
      | .error e => (.error e, w)
      | .ok predictions =>
          match scalarTargets cfg.predict input_data with
          | none => (.error .keyError, w)
          | some actuals => (.ok (r2_score actuals predictions), w)

/-- Embedding of `XDGRegressorModel.predict`: raise `ModelNotTrained` if `self.saved`
is `None`; otherwise read the input records, build the feature table,
compute all predictions eagerly (`self.saved.predict(...)` runs before the
yield loop), then for each `(record, prediction)` pair attach
`record.predicted(self.config.predict.name, float(prediction), float("nan"))`
and yield the record.  The yielded sequence is the first component; the
method writes nothing to the handle or the disk. -/
def predictM (lib : ExtLib) (cfg : XDGRegressorModelConfig) (w : World) :
    Except XError (List Record) × World :=
  match w.saved with
  | none => (.error (.modelNotTrained "Train the model first before getting preictions"), w)
  | some m =>
      let input_data := withFeatures w.source cfg.features
      let xdata := tableOf cfg.features input_data
      match m.predictTable lib xdata with
      | .error e => (.error e, w)
      | .ok predictions =>
          (.ok ((input_data.zip predictions).map
            (fun rp => rp.1.predicted cfg.predict rp.2 Conf.nan)), w)

/-! ### Concrete fixtures used by witnesses and counterexamples -/

/-- A small concrete configuration: one input feature `f`, target `y`. -/
def cfgW : XDGRegressorModelConfig :=
  { directory := "/tmp/m", features := ["f"], predict := "y",
    learning_rate := 1/10, n_estimators := 1000 }

/-- A record whose feature `f` is scalar. -/
def rA : Record := { key := "a", data := [("f", .scalar 1), ("y", .scalar 2)], preds := [] }

/-- A record whose feature `f` is a two-element vector. -/
def rB : Record := { key := "b", data := [("f", .vector [1, 2]), ("y", .scalar 0)], preds := [] }

/-- An external library whose `fit` accepts everything and remembers the data. -/
def libOk : ExtLib := { fitResult := fun x y => some (x, y), predictRow := fun _ _ => 0 }

/-- An external library whose `fit` always raises. -/
def libFail : ExtLib := { fitResult := fun _ _ => none, predictRow := fun _ _ => 0 }

/-- An empty filesystem. -/
def diskNone : String → Option XGBRegressor := fun _ => none

/-! ### Helper lemmas -/

theorem foldl_append_flatten (l : List FeatureValue) (acc : List ℚ) :
    l.foldl (fun record_data feature => record_data ++ flattenValue feature) acc
      = acc ++ (l.map flattenValue).flatten := by
  induction l generalizing acc with
  | nil => simp
  | cons v l ih => simp [ih, List.append_assoc]

theorem recordRow_eq_join (names : List String) (r : Record) :
    recordRow names r =
      (names.map (fun n =>
        match r.feature n with
        | some v => flattenValue v
        | none => [])).flatten := by
  rw [recordRow, foldl_append_flatten, List.nil_append, Record.featureValues]
  induction names with
  | nil => rfl
  | cons n names ih =>
      cases h : r.feature n <;> simp [List.filterMap_cons, h, ih]

/-! ### Claim theorems -/

/-- Claim C1: with a null fitted-model handle (`self.saved = None`), both
`accuracy` and `predict` fail immediately with `ModelNotTrained` (each with
its own message string), for every external library, configuration,
filesystem and record source — the result does not depend on the source or
the library (the guard runs before any data access or regressor call) and
the world is returned unchanged. -/
theorem accuracy_predict_untrained (lib : ExtLib) (cfg : XDGRegressorModelConfig)
    (disk : String → Option XGBRegressor) (recs : List Record) :
    accuracy lib cfg ⟨none, disk, recs⟩ =
      (.error (.modelNotTrained "Train the model before assessing accuracy"),
       ⟨none, disk, recs⟩) ∧
    predictM lib cfg ⟨none, disk, recs⟩ =
      (.error (.modelNotTrained "Train the model first before getting preictions"),
       ⟨none, disk, recs⟩) :=
  ⟨rfl, rfl⟩

/-- Claim C4: the feature table has exactly one row per record, in the
input's iteration order (`get?`-pointwise: row `i` is the flattened row of
record `i`), and each row is the concatenation, over the configured features
in configured order, of one element per scalar value and all elements of a
vector value. -/
theorem table_one_row_per_record (names : List String) (recs : List Record) :
    (tableOf names recs).length = recs.length ∧
    (∀ i, (tableOf names recs).get? i = (recs.get? i).map (recordRow names)) ∧
    (∀ r : Record, recordRow names r =
      (names.map (fun n =>
        match r.feature n with
        | some v => flattenValue v
        | none => [])).flatten) := by
  refine ⟨by simp [tableOf], fun i => ?_, fun r => recordRow_eq_join names r⟩
  simp [tableOf, List.getElem?_map]

/-- Claim C8: construction loads the blob at `<directory>/model.joblib` into
the in-memory handle exactly when it exists, otherwise leaves the handle
null; the filesystem and the source pass through untouched.  `initModel`
takes no external library at all, so construction cannot train, and it is a
total function, so it cannot raise when no blob is found. -/
theorem init_loads_blob (cfg : XDGRegressorModelConfig)
    (disk : String → Option XGBRegressor) (recs : List Record) :
    (initModel cfg disk recs).saved = disk (savedFilepath cfg) ∧
    (initModel cfg disk recs).disk = disk ∧
    (initModel cfg disk recs).source = recs := by
  refine ⟨?_, rfl, rfl⟩
  cases h : disk (savedFilepath cfg) <;> simp [initModel, h]

/-- Claim C9: the table build is deterministic (equal inputs give equal
tables; it reads nothing but the feature-name list and the records) and
order-preserving: it maps over the records one by one, so a batch
decomposes row-by-row (`cons`) and segment-by-segment (`append`) following
the input order. -/
theorem table_deterministic_order_preserving (names names₂ : List String)
    (recs recs₂ : List Record) :
    (names = names₂ → recs = recs₂ → tableOf names recs = tableOf names₂ recs₂) ∧
    (∀ (r : Record) (l : List Record),
      tableOf names (r :: l) = recordRow names r :: tableOf names l) ∧
    (∀ l₁ l₂ : List Record,
      tableOf names (l₁ ++ l₂) = tableOf names l₁ ++ tableOf names l₂) := by
  refine ⟨fun h₁ h₂ => by rw [h₁, h₂], fun r l => rfl, fun l₁ l₂ => ?_⟩
  simp [tableOf]

/-- Witness for C9 at a concrete batch. -/
theorem table_deterministic_order_preserving_witness :
    tableOf ["f"] [rA, rB] = tableOf ["f"] [rA, rB] ∧
    tableOf ["f"] (rA :: [rB]) = recordRow ["f"] rA :: tableOf ["f"] [rB] :=
  ⟨(table_deterministic_order_preserving ["f"] ["f"] [rA, rB] [rA, rB]).1 rfl rfl,
   (table_deterministic_order_preserving ["f"] ["f"] [rA, rB] [rA, rB]).2.1 rA [rB]⟩

/-- A previously fitted model, standing for a prior trained state. -/
def m0 : XGBRegressor := { freshRegressor cfgW with fitted := some ([[3]], [.scalar 4]) }

/-- A world holding a prior trained model both in memory and on disk. -/
def w3 : World :=
  { saved := some m0
    disk := fun p => if p = savedFilepath cfgW then some m0 else none
    source := [rA] }

/-- A fitted model whose opaque fitted state is empty. -/
def m6 : XGBRegressor := { freshRegressor cfgW with fitted := some ([], []) }

theorem zip_map_self {α β γ : Type} (f : α → β) (g : α × β → γ) (l : List α) :
    (l.zip (l.map f)).map g = l.map (fun x => g (x, f x)) := by
  induction l with
  | nil => rfl
  | cons a l ih => simp [ih]

/-- Claim C2: when the external `fit` accepts the built table and target
column, `train` ends with the handle holding a regressor constructed with
exactly `{n_estimators = config.n_estimators, learning_rate =
config.learning_rate, max_depth = 2, subsample = 0.8}` and fitted on that
table — a full replacement whose value never mentions the prior handle —
and the same regressor is persisted at `<directory>/model.joblib`
(overwriting whatever was there), while every other path is untouched. -/
theorem train_success_replaces_and_persists (lib : ExtLib)
    (cfg : XDGRegressorModelConfig) (w : World) (d : FittedData)
    (hfit : lib.fitResult (trainTable cfg w.source) (trainTargets cfg w.source) = some d) :
    ∃ m : XGBRegressor,
      m.n_estimators = cfg.n_estimators ∧
      m.learning_rate = cfg.learning_rate ∧
      m.max_depth = 2 ∧
      m.subsample = 8/10 ∧
      m.fitted = some d ∧
      (train lib cfg w).1 = .ok () ∧
      (train lib cfg w).2.saved = some m ∧
      (train lib cfg w).2.disk (savedFilepath cfg) = some m ∧
      (∀ p, p ≠ savedFilepath cfg → (train lib cfg w).2.disk p = w.disk p) ∧
      (train lib cfg w).2.source = w.source := by
  refine ⟨{ freshRegressor cfg with fitted := some d },
    rfl, rfl, rfl, rfl, rfl, ?_, ?_, ?_, fun p hp => ?_, ?_⟩ <;>
    simp [train, hfit]
  exact fun h => absurd h hp

/-- Witness for C2 on a concrete world and an accept-everything library. -/
theorem train_success_replaces_and_persists_witness :
    ∃ m : XGBRegressor,
      m.n_estimators = cfgW.n_estimators ∧
      m.learning_rate = cfgW.learning_rate ∧
      m.max_depth = 2 ∧
      m.subsample = 8/10 ∧
      m.fitted = some ([[1]], [.scalar 2]) ∧
      (train libOk cfgW ⟨none, diskNone, [rA]⟩).1 = .ok () ∧
      (train libOk cfgW ⟨none, diskNone, [rA]⟩).2.saved = some m ∧
      (train libOk cfgW ⟨none, diskNone, [rA]⟩).2.disk (savedFilepath cfgW) = some m ∧
      (∀ p, p ≠ savedFilepath cfgW →
        (train libOk cfgW ⟨none, diskNone, [rA]⟩).2.disk p = diskNone p) ∧
      (train libOk cfgW ⟨none, diskNone, [rA]⟩).2.source = [rA] :=
  train_success_replaces_and_persists libOk cfgW ⟨none, diskNone, [rA]⟩
    ([[1]], [.scalar 2]) (by rfl)

/-- Counterexample to claim C3 as stated: on a world whose handle and disk
hold a previously trained model, a `train` call whose `fit` raises leaves
the persisted blob alone but does NOT leave the adapter's prior in-memory
state intact — the handle has already been replaced by the fresh unfitted
regressor. -/
theorem train_failure_not_fully_transactional :
    (train libFail cfgW w3).1 = .error .fitError ∧
    (train libFail cfgW w3).2.disk (savedFilepath cfgW) = some m0 ∧
    (train libFail cfgW w3).2.saved ≠ w3.saved := by
  refine ⟨rfl, by simp [train, libFail, w3], ?_⟩
  simp [train, libFail, w3]
  intro h
  have hf := congrArg XGBRegressor.fitted h
  simp [freshRegressor, m0] at hf

/-- Claim C3 (amended): a `train` call whose `fit` raises leaves the
filesystem — in particular the previously persisted blob at
`<directory>/model.joblib` — exactly as it was (the file is only written
after a fully successful fit), but the in-memory handle is not restored:
it holds the fresh unfitted regressor assigned before `fit` was called. -/
theorem train_failure_preserves_disk (lib : ExtLib)
    (cfg : XDGRegressorModelConfig) (w : World)
    (hfit : lib.fitResult (trainTable cfg w.source) (trainTargets cfg w.source) = none) :
    train lib cfg w = (.error .fitError, { w with saved := some (freshRegressor cfg) }) ∧
    (train lib cfg w).2.disk = w.disk := by
  constructor <;> simp [train, hfit]

/-- Witness for the amended C3 on a concrete prior world. -/
theorem train_failure_preserves_disk_witness :
    train libFail cfgW w3 = (.error .fitError, { w3 with saved := some (freshRegressor cfgW) }) ∧
    (train libFail cfgW w3).2.disk = w3.disk :=
  train_failure_preserves_disk libFail cfgW w3 (by rfl)

/-- Counterexample to claim C5 as stated: two records of the same batch
whose flattened rows have lengths 1 and 2 do not make the build fail — no
`FeatureShapeError` exists anywhere in the adapter — and the ragged table
is handed as-is to the external `fit` call: `train` succeeds whenever the
external library accepts, and the model it stores was fit on exactly the
ragged table `[[1], [1, 2]]`. -/
theorem ragged_rows_no_adapter_error :
    (recordRow ["f"] rA).length = 1 ∧
    (recordRow ["f"] rB).length = 2 ∧
    tableOf ["f"] [rA, rB] = [[1], [1, 2]] ∧
    (train libOk cfgW ⟨none, diskNone, [rA, rB]⟩).1 = .ok () ∧
    ((train libOk cfgW ⟨none, diskNone, [rA, rB]⟩).2.saved.map XGBRegressor.fitted)
      = some (some ([[1], [1, 2]], [.scalar 2, .scalar 0])) := by
  refine ⟨rfl, rfl, by decide, rfl, by decide⟩

/-- Claim C5 (amended): the adapter performs no per-batch row-length check
and defines no `FeatureShapeError`; differing-length rows produce a ragged
table that is handed as-is to the external library, so the only failure a
`train` call can surface is the external `fit` call's own error. -/
theorem train_no_shape_error (lib : ExtLib) (cfg : XDGRegressorModelConfig)
    (w : World) :
    (train lib cfg w).1 = .ok () ∨ (train lib cfg w).1 = .error .fitError := by
  cases h : lib.fitResult (trainTable cfg w.source) (trainTargets cfg w.source) with
  | none => exact Or.inr (by simp [train, h])
  | some d => exact Or.inl (by simp [train, h])

/-- Claim C6: with a non-null handle, `accuracy` reads the records exposing
the configured input features, builds the feature table over those
features, asks the fitted model for predictions, reads each record's true
target value, and returns `r2_score(actuals, predictions)` — the
coefficient of determination with the true values first — while the
handle, the filesystem and the records pass through completely unchanged. -/
theorem accuracy_returns_r2 (lib : ExtLib) (cfg : XDGRegressorModelConfig)
    (m : XGBRegressor) (disk : String → Option XGBRegressor) (recs : List Record)
    (predictions actuals : List ℚ)
    (hp : m.predictTable lib (tableOf cfg.features (withFeatures recs cfg.features))
      = .ok predictions)
    (ha : scalarTargets cfg.predict (withFeatures recs cfg.features) = some actuals) :
    accuracy lib cfg ⟨some m, disk, recs⟩ =
      (.ok (r2_score actuals predictions), ⟨some m, disk, recs⟩) := by
  simp [accuracy, hp, ha]

/-- Witness for C6 on a concrete fitted model and record source. -/
theorem accuracy_returns_r2_witness :
    accuracy libOk cfgW ⟨some m6, diskNone, [rA]⟩ =
      (.ok (r2_score [2] [0]), ⟨some m6, diskNone, [rA]⟩) :=
  accuracy_returns_r2 libOk cfgW m6 diskNone [rA] [0] [2] (by rfl) (by rfl)

/-- Claim C7: with a handle holding a fitted model, `predict` yields
exactly one record per input record, in input order: the input record with
the prediction for its flattened row attached under the target feature's
name together with the not-a-number confidence placeholder.  All
predictions come from the single `self.saved.predict` call on the full
feature table, which runs before the first record is yielded; the handle
and the filesystem are untouched. -/
theorem predict_yields_one_per_record (lib : ExtLib)
    (cfg : XDGRegressorModelConfig) (m : XGBRegressor) (d : FittedData)
    (disk : String → Option XGBRegressor) (recs : List Record)
    (hm : m.fitted = some d) :
    predictM lib cfg ⟨some m, disk, recs⟩ =
      (.ok ((withFeatures recs cfg.features).map
        (fun r => r.predicted cfg.predict
          (lib.predictRow d (recordRow cfg.features r)) Conf.nan)),
       ⟨some m, disk, recs⟩) := by
  simp [predictM, XGBRegressor.predictTable, hm, tableOf, zip_map_self]

/-- Witness for C7 on a concrete fitted model and record source. -/
theorem predict_yields_one_per_record_witness :
    predictM libOk cfgW ⟨some m6, diskNone, [rA]⟩ =
      (.ok ((withFeatures [rA] cfgW.features).map
        (fun r => r.predicted cfgW.predict
          (libOk.predictRow ([], []) (recordRow cfgW.features r)) Conf.nan)),
       ⟨some m6, diskNone, [rA]⟩) :=
  predict_yields_one_per_record libOk cfgW m6 ([], []) diskNone [rA] (by rfl)

/-- Claim C10: `train` assigns the fresh regressor to the handle before
calling `fit`, so when `fit` raises, the adapter is left with a non-null
but unfitted handle; a subsequent `accuracy` or `predict` call then gets
past the `ModelNotTrained` guard and fails inside the external library
with its not-fitted error instead — a different error than
`ModelNotTrained`. -/
theorem failed_fit_leaves_nonnull_unfitted_handle (lib : ExtLib)
    (cfg : XDGRegressorModelConfig) (w : World)
    (hfit : lib.fitResult (trainTable cfg w.source) (trainTargets cfg w.source) = none) :
    (train lib cfg w).1 = .error .fitError ∧
    (train lib cfg w).2.saved = some (freshRegressor cfg) ∧
    (freshRegressor cfg).fitted = none ∧
    (accuracy lib cfg (train lib cfg w).2).1 = .error .notFitted ∧
    (predictM lib cfg (train lib cfg w).2).1 = .error .notFitted := by
  have ht : train lib cfg w = (.error .fitError, { w with saved := some (freshRegressor cfg) }) := by
    simp [train, hfit]
  refine ⟨by rw [ht], by rw [ht], rfl, ?_, ?_⟩ <;>
    rw [ht] <;>
    simp [accuracy, predictM, XGBRegressor.predictTable, freshRegressor]

/-- Witness for C10 on a concrete world whose `fit` call fails. -/
theorem failed_fit_leaves_nonnull_unfitted_handle_witness :
    (train libFail cfgW w3).1 = .error .fitError ∧
    (train libFail cfgW w3).2.saved = some (freshRegressor cfgW) ∧
    (freshRegressor cfgW).fitted = none ∧
    (accuracy libFail cfgW (train libFail cfgW w3).2).1 = .error .notFitted ∧
    (predictM libFail cfgW (train libFail cfgW w3).2).1 = .error .notFitted :=
  failed_fit_leaves_nonnull_unfitted_handle libFail cfgW w3 (by rfl)

end DffmlXgb
